import Mathlib

/-!
Shallow embedding of the storage/access layer of the aiaio repository
(file src/aiaio/db.py, class ChatDatabase).

The SQLite database is modelled as explicit state: one list of rows per
table.  Timestamps (time.time() / strftime defaults) are abstract clock
values passed in as a Nat parameter; generated uuid4 identifiers are
passed in as String parameters.  REAL columns that are only ever stored
and read back (temperature, top_p) are modelled as exact rationals.
Python dicts used as loosely-typed inputs (settings, attachment
descriptors) are modelled as structures of Option fields, a missing key
being none.  A statement that SQLite would reject (CHECK constraint,
UNIQUE primary key) is modelled as an error; the `with sqlite3.connect`
block commits on success and rolls back on an exception, which is
modelled by discarding the partial state on error.
-/

namespace ChatDb

/-- A row of the conversations table (db.py, schema script, lines 10-15). -/
structure Conversation where
  conversation_id : String
  created_at : Nat
  last_updated : Nat
  summary : Option String
  deriving Repr, DecidableEq

/-- A row of the messages table (db.py, schema script, lines 17-25). -/
structure Message where
  message_id : String
  conversation_id : String
  role : String
  content_type : String
  content : String
  created_at : Nat
  deriving Repr, DecidableEq

/-- A row of the attachments table (db.py, schema script, lines 27-36). -/
structure Attachment where
  attachment_id : String
  message_id : String
  file_name : String
  file_path : String
  file_type : String
  file_size : Int
  created_at : Nat
  deriving Repr, DecidableEq

/-- A row of the settings table (db.py, schema script, lines 38-49).
The SQL column named "default" is rendered as is_default. -/
structure SettingsRow where
  id : Nat
  name : String
  is_default : Bool
  temperature : Rat
  max_tokens : Int
  top_p : Rat
  host : String
  model_name : String
  api_key : String
  updated_at : Nat
  deriving Repr, DecidableEq

/-- The whole database file: one list of rows per table, plus the
AUTOINCREMENT counter of the settings table (always larger than every
id already handed out). -/
structure DBState where
  conversations : List Conversation
  messages : List Message
  attachments : List Attachment
  settings : List SettingsRow
  nextSettingsId : Nat
  deriving Repr, DecidableEq

/-- The settings row inserted by the schema script (db.py lines 52-53);
its AUTOINCREMENT id is 1, its updated_at comes from the column default
(current time). -/
def defaultSettingsRow (now : Nat) : SettingsRow :=
  { id := 1
    name := "default"
    is_default := true
    temperature := 1
    max_tokens := 4096
    top_p := (0.95 : Rat)
    host := "http://localhost:8000/v1"
    model_name := "meta-llama/Llama-3.2-1B-Instruct"
    api_key := ""
    updated_at := now }

/-- State of a freshly created database: the schema script has made the
four empty tables and inserted the single default settings profile
(db.py, _init_db fresh-file branch, line 86). -/
def freshDB (now : Nat) : DBState :=
  { conversations := []
    messages := []
    attachments := []
    settings := [defaultSettingsRow now]
    nextSettingsId := 2 }

/-- A settings dict as passed to save_settings / add_settings: each key
may be absent.  An absent or None id selects the insert branch of
save_settings (db.py line 264). -/
structure SettingsInput where
  id : Option Nat := none
  name : Option String := none
  temperature : Option Rat := none
  max_tokens : Option Int := none
  top_p : Option Rat := none
  host : Option String := none
  model_name : Option String := none
  api_key : Option String := none
  deriving Repr, DecidableEq

/-- The fresh settings row built by the INSERT of add_settings
(db.py lines 336-352) and of the insert branch of save_settings
(db.py lines 265-282): absent keys take the documented defaults; the
"default" column is not in the column list so it takes its schema
default false; updated_at is the current time. -/
def newSettingsRow (s : DBState) (input : SettingsInput) (now : Nat) : SettingsRow :=
  { id := s.nextSettingsId
    name := input.name.getD "New Config"
    is_default := false
    temperature := input.temperature.getD 1
    max_tokens := input.max_tokens.getD 4096
    top_p := input.top_p.getD (0.95 : Rat)
    host := input.host.getD "http://localhost:8000/v1"
    model_name := input.model_name.getD "meta-llama/Llama-3.2-1B-Instruct"
    api_key := input.api_key.getD ""
    updated_at := now }

/-- add_settings (db.py lines 326-353): inserts a new settings row and
returns cursor.lastrowid, the AUTOINCREMENT id of the new row. -/
def add_settings (s : DBState) (input : SettingsInput) (now : Nat) : DBState × Nat :=
  ({ s with
      settings := s.settings ++ [newSettingsRow s input now]
      nextSettingsId := s.nextSettingsId + 1 },
   s.nextSettingsId)

/-- The UPDATE of the update branch of save_settings (db.py lines
286-310) applied to one row: sets the listed columns, leaves id and the
"default" flag alone.  Applied to every row matching the WHERE id
clause. -/
def updateSettingsRow (input : SettingsInput) (now : Nat) (r : SettingsRow) : SettingsRow :=
  { r with
      name := input.name.getD "Default Config"
      temperature := input.temperature.getD 1
      max_tokens := input.max_tokens.getD 4096
      top_p := input.top_p.getD (0.95 : Rat)
      host := input.host.getD "http://localhost:8000/v1"
      model_name := input.model_name.getD "meta-llama/Llama-3.2-1B-Instruct"
      api_key := input.api_key.getD ""
      updated_at := now }

/-- save_settings (db.py lines 251-311).  Without an id: insert with the
same defaults as add_settings plus an explicit updated_at, returning
cursor.rowcount > 0 (true, one row inserted).  With an id: UPDATE the
row with that id and return whether a row matched. -/
def save_settings (s : DBState) (input : SettingsInput) (now : Nat) : DBState × Bool :=
  match input.id with
  | none =>
      ({ s with
          settings := s.settings ++ [newSettingsRow s input now]
          nextSettingsId := s.nextSettingsId + 1 },
       true)
  | some sid =>
      ({ s with
          settings := s.settings.map fun r =>
            if r.id = sid then updateSettingsRow input now r else r },
       s.settings.any fun r => r.id = sid)

/-- set_default_settings (db.py lines 355-373): first UPDATE clears the
"default" flag wherever it is set, second UPDATE sets it on the row
whose id matches, and the returned Bool is cursor.rowcount > 0 of the
second UPDATE. -/
def set_default_settings (s : DBState) (sid : Nat) : DBState × Bool :=
  let cleared := s.settings.map fun r =>
    if r.is_default then { r with is_default := false } else r
  let updated := cleared.map fun r =>
    if r.id = sid then { r with is_default := true } else r
  ({ s with settings := updated }, cleared.any fun r => r.id = sid)

/-- get_settings (db.py lines 313-324): fetchone on the rows whose
"default" flag is set; none models the empty dict. -/
def get_settings (s : DBState) : Option SettingsRow :=
  s.settings.find? fun r => r.is_default

/-- get_settings_by_id (db.py lines 386-401): fetchone on WHERE id. -/
def get_settings_by_id (s : DBState) (sid : Nat) : Option SettingsRow :=
  s.settings.find? fun r => r.id = sid

/-- The role CHECK constraint of the messages table (db.py line 20). -/
def validRoles : List String := ["user", "assistant", "system"]

/-- The content_type CHECK constraint of the messages table (db.py line 21). -/
def validContentTypes : List String := ["text", "image", "audio", "video", "file"]

/-- create_conversation (db.py lines 102-111): inserts a row whose
timestamps come from the column defaults (current time) and whose
summary is NULL; fails only on a primary-key collision (uuid4 ids are
fresh in practice). -/
def create_conversation (s : DBState) (cid : String) (now : Nat) :
    Except String (DBState × String) :=
  if s.conversations.any fun c => c.conversation_id = cid then
    .error "UNIQUE constraint failed: conversations.conversation_id"
  else
    .ok ({ s with
            conversations := s.conversations ++
              [{ conversation_id := cid, created_at := now, last_updated := now,
                 summary := none }] },
         cid)

/-- An attachment descriptor dict handed to add_message: the code reads
the keys name, path, type, size (db.py lines 160-163); a missing key
raises KeyError. -/
structure AttachmentInput where
  name : Option String := none
  path : Option String := none
  ftype : Option String := none
  size : Option Int := none
  deriving Repr, DecidableEq

/-- Whether an attachment descriptor carries all four required keys. -/
def AttachmentInput.complete (att : AttachmentInput) : Bool :=
  att.name.isSome && att.path.isSome && att.ftype.isSome && att.size.isSome

/-- The attachments-table row produced for one descriptor by the INSERT
of db.py lines 153-166: generated id aid, owning message mid, the four
dict fields, and the call's single timestamp. -/
def attachmentRowOf (mid : String) (now : Nat) (aid : String)
    (att : AttachmentInput) : Attachment :=
  { attachment_id := aid
    message_id := mid
    file_name := att.name.getD ""
    file_path := att.path.getD ""
    file_type := att.ftype.getD ""
    file_size := att.size.getD 0
    created_at := now }

/-- The first INSERT of add_message (db.py lines 137-142): rejected on a
duplicate message_id (primary key) or a CHECK-constraint violation on
role or content_type; sqlite does not enforce the foreign key, so a
missing parent conversation is not an error. -/
def insertMessageRow (s : DBState) (m : Message) : Option String × DBState :=
  if s.messages.any fun x => x.message_id = m.message_id then
    (some "UNIQUE constraint failed: messages.message_id", s)
  else if validRoles.contains m.role then
    if validContentTypes.contains m.content_type then
      (none, { s with messages := s.messages ++ [m] })
    else (some "CHECK constraint failed: content_type", s)
  else (some "CHECK constraint failed: role", s)

/-- The UPDATE of add_message (db.py lines 144-149): sets last_updated
on every conversation row matching the id (a no-op when none does). -/
def touchConversation (s : DBState) (cid : String) (now : Nat) : DBState :=
  { s with
      conversations := s.conversations.map fun c =>
        if c.conversation_id = cid then { c with last_updated := now } else c }

/-- The attachment loop of add_message (db.py lines 151-166): one INSERT
per descriptor, each consuming a fresh generated id; reading a missing
dict key raises KeyError, which aborts the loop there. -/
def insertAttachmentRows (mid : String) (now : Nat) :
    DBState → List (String × AttachmentInput) → Option String × DBState
  | s, [] => (none, s)
  | s, (aid, att) :: rest =>
    match att.name, att.path, att.ftype, att.size with
    | some n, some p, some t, some sz =>
      if s.attachments.any fun a => a.attachment_id = aid then
        (some "UNIQUE constraint failed: attachments.attachment_id", s)
      else
        insertAttachmentRows mid now
          { s with attachments := s.attachments ++
              [{ attachment_id := aid, message_id := mid, file_name := n,
                 file_path := p, file_type := t, file_size := sz,
                 created_at := now }] }
          rest
    | _, _, _, _ => (some "KeyError", s)

/-- The statements of add_message run in order inside the transaction
(db.py lines 136-166), stopping at the first error; the returned state
is the uncommitted work of the connection. -/
def add_message_raw (s : DBState) (cid role content content_type : String)
    (attachments : List AttachmentInput) (mid : String) (attIds : List String)
    (now : Nat) : Option String × DBState :=
  match insertMessageRow s
      { message_id := mid, conversation_id := cid, role := role,
        content_type := content_type, content := content, created_at := now } with
  | (some e, s1) => (some e, s1)
  | (none, s1) =>
      insertAttachmentRows mid now (touchConversation s1 cid now)
        (attIds.zip attachments)

/-- add_message (db.py lines 113-168).  The enclosing with-block commits
the connection when the suite ends normally and rolls everything back
when an exception escapes, so the caller observes either the fully
updated state or an error with the original state intact. -/
def add_message (s : DBState) (cid role content content_type : String)
    (attachments : List AttachmentInput) (mid : String) (attIds : List String)
    (now : Nat) : Except String (DBState × String) :=
  match add_message_raw s cid role content content_type attachments mid attIds now with
  | (some e, _) => .error e
  | (none, s2) => .ok (s2, mid)

/-- The state the caller of add_message sees afterwards: the committed
state on success, the rolled-back original on an exception. -/
def add_message_state (s : DBState) (cid role content content_type : String)
    (attachments : List AttachmentInput) (mid : String) (attIds : List String)
    (now : Nat) : DBState :=
  match add_message s cid role content content_type attachments mid attIds now with
  | .error _ => s
  | .ok (s2, _) => s2

/-- The attachment columns selected by the history query
(db.py line 182): a.attachment_id, a.file_name, a.file_path,
a.file_type, a.file_size. -/
structure HistoryAttachment where
  attachment_id : String
  file_name : String
  file_path : String
  file_type : String
  file_size : Int
  deriving Repr, DecidableEq

/-- One element of the list returned by get_conversation_history: the
message columns plus the grouped attachments list (db.py lines 195-199). -/
structure HistoryEntry where
  message : Message
  attachments : List HistoryAttachment
  deriving Repr, DecidableEq

/-- Projection of an attachments-table row onto the selected columns. -/
def attachmentView (a : Attachment) : HistoryAttachment :=
  { attachment_id := a.attachment_id
    file_name := a.file_name
    file_path := a.file_path
    file_type := a.file_type
    file_size := a.file_size }

/-- The rows the LEFT JOIN produces for one message: a single row with
NULL attachment columns when the message has no attachments, otherwise
one row per matching attachment. -/
def expandMessage (m : Message) (atts : List Attachment) :
    List (Message × Option Attachment) :=
  match atts with
  | [] => [(m, none)]
  | _ :: _ => atts.map fun a => (m, some a)

/-- The result rows of the history query (db.py lines 181-188): messages
of the conversation ordered by created_at ascending, left-joined with
their attachments. -/
def joinRows (s : DBState) (cid : String) : List (Message × Option Attachment) :=
  let sorted := (s.messages.filter fun m => m.conversation_id = cid).mergeSort
    fun a b => a.created_at ≤ b.created_at
  sorted.flatMap fun m =>
    expandMessage m (s.attachments.filter fun a => a.message_id = m.message_id)

/-- The python truthiness test on row["attachment_id"] (db.py line 201):
a NULL (no joined attachment) or an empty string contributes nothing. -/
def truthyAttachment : Option Attachment → List HistoryAttachment
  | none => []
  | some a => if a.attachment_id = "" then [] else [attachmentView a]

/-- One iteration of the grouping loop (db.py lines 192-210): a row of a
message already seen only appends its attachment (when truthy) to that
entry; a first-seen message adds a fresh entry at the end, dict
insertion order. -/
def addRowToGroups (acc : List HistoryEntry) (row : Message × Option Attachment) :
    List HistoryEntry :=
  if acc.any fun e => e.message.message_id = row.1.message_id then
    acc.map fun e =>
      if e.message.message_id = row.1.message_id then
        { e with attachments := e.attachments ++ truthyAttachment row.2 }
      else e
  else
    acc ++ [{ message := row.1, attachments := truthyAttachment row.2 }]

/-- get_conversation_history (db.py lines 170-212): run the join query,
then fold its rows into one entry per message. -/
def get_conversation_history (s : DBState) (cid : String) : List HistoryEntry :=
  (joinRows s cid).foldl addRowToGroups []

/-- First DELETE of delete_conversation (db.py lines 221-227): every
attachment whose owning message belongs to the conversation. -/
def delete_conversation_attachments (s : DBState) (cid : String) : DBState :=
  let msgIds := (s.messages.filter fun m => m.conversation_id = cid).map
    fun m => m.message_id
  { s with attachments := s.attachments.filter fun a => ¬ msgIds.contains a.message_id }

/-- Second DELETE of delete_conversation (db.py line 228): the messages
of the conversation. -/
def delete_conversation_messages (s : DBState) (cid : String) : DBState :=
  { s with messages := s.messages.filter fun m => ¬ m.conversation_id = cid }

/-- Third DELETE of delete_conversation (db.py line 229): the
conversation row itself. -/
def delete_conversation_row (s : DBState) (cid : String) : DBState :=
  { s with conversations := s.conversations.filter fun c => ¬ c.conversation_id = cid }

/-- delete_conversation (db.py lines 214-229): the three DELETEs in
dependency order, attachments first, then messages, then the
conversation row. -/
def delete_conversation (s : DBState) (cid : String) : DBState :=
  delete_conversation_row
    (delete_conversation_messages (delete_conversation_attachments s cid) cid) cid

/-- update_conversation_summary (db.py lines 403-411). -/
def update_conversation_summary (s : DBState) (cid summary : String) : DBState :=
  { s with
      conversations := s.conversations.map fun c =>
        if c.conversation_id = cid then { c with summary := some summary } else c }

/-!
Schema-level model for _init_db on an existing database file
(db.py lines 87-100).  The state records which tables exist in
sqlite_master, the columns of the conversations table, and the rows the
column migration must not touch.  executescript commits any pending
transaction and then runs the script statements one by one in
autocommit mode, so a failing CREATE TABLE leaves the statements before
it in effect and raises.
-/

/-- The part of the database file that _init_db inspects on an existing
store. -/
structure SchemaState where
  tables : List String
  conversationColumns : List String
  conversationRows : List Conversation
  settingsRows : List SettingsRow
  deriving Repr, DecidableEq

/-- The four table names _init_db looks for (db.py lines 89-93). -/
def expectedTables : List String := ["conversations", "messages", "attachments", "settings"]

/-- The columns of the conversations table as created by the schema
script (db.py lines 10-15). -/
def conversationsColumns : List String :=
  ["conversation_id", "created_at", "last_updated", "summary"]

/-- CREATE TABLE conversations: fails if the table already exists,
otherwise registers a fresh empty table. -/
def stepCreateConversations (st : SchemaState) : Option String × SchemaState :=
  if st.tables.contains "conversations" then
    (some "table conversations already exists", st)
  else
    (none, { st with
              tables := st.tables ++ ["conversations"]
              conversationColumns := conversationsColumns
              conversationRows := [] })

/-- CREATE TABLE messages. -/
def stepCreateMessages (st : SchemaState) : Option String × SchemaState :=
  if st.tables.contains "messages" then
    (some "table messages already exists", st)
  else (none, { st with tables := st.tables ++ ["messages"] })

/-- CREATE TABLE attachments. -/
def stepCreateAttachments (st : SchemaState) : Option String × SchemaState :=
  if st.tables.contains "attachments" then
    (some "table attachments already exists", st)
  else (none, { st with tables := st.tables ++ ["attachments"] })

/-- CREATE TABLE settings: a fresh empty settings table. -/
def stepCreateSettings (st : SchemaState) : Option String × SchemaState :=
  if st.tables.contains "settings" then
    (some "table settings already exists", st)
  else (none, { st with tables := st.tables ++ ["settings"], settingsRows := [] })

/-- conn.executescript(_DB): the four CREATE TABLE statements and the
default-profile INSERT, executed in order, stopping at the first
error. -/
def executeSchemaScript (st : SchemaState) (now : Nat) : Option String × SchemaState :=
  match stepCreateConversations st with
  | (some e, st1) => (some e, st1)
  | (none, st1) =>
    match stepCreateMessages st1 with
    | (some e, st2) => (some e, st2)
    | (none, st2) =>
      match stepCreateAttachments st2 with
      | (some e, st3) => (some e, st3)
      | (none, st3) =>
        match stepCreateSettings st3 with
        | (some e, st4) => (some e, st4)
        | (none, st4) =>
          (none, { st4 with settingsRows := st4.settingsRows ++ [defaultSettingsRow now] })

/-- The branch of _init_db taken when the database file already exists
(db.py lines 87-100): count the expected tables present in
sqlite_master; fewer than four re-runs the whole schema script;
otherwise PRAGMA table_info(conversations) is checked for the summary
column, which is added by ALTER TABLE when absent. -/
def init_db_existing (st : SchemaState) (now : Nat) : Option String × SchemaState :=
  if (expectedTables.filter fun t => st.tables.contains t).length < 4 then
    executeSchemaScript st now
  else if st.conversationColumns.contains "summary" then (none, st)
  else (none, { st with conversationColumns := st.conversationColumns ++ ["summary"] })

/-!
Auxiliary definitions for the statements: the single-default invariant,
sequences of settings-store operations, and small concrete states used
to instantiate the theorems.
-/

/-- The number of settings rows whose "default" flag is set. -/
def defaultCount (s : DBState) : Nat :=
  (s.settings.filter fun r => r.is_default).length

/-- Well-formedness of the settings table as maintained by the store:
ids are pairwise distinct and below the AUTOINCREMENT counter, and at
most one row is flagged default. -/
def SettingsInv (s : DBState) : Prop :=
  (s.settings.map fun r => r.id).Nodup ∧
  (∀ r ∈ s.settings, r.id < s.nextSettingsId) ∧
  defaultCount s ≤ 1

/-- The store operations that touch the settings table. -/
inductive SettingsOp where
  | add (input : SettingsInput) (now : Nat)
  | save (input : SettingsInput) (now : Nat)
  | setDefault (sid : Nat)
  deriving Repr, DecidableEq

/-- Effect of one settings-store operation on the database. -/
def applySettingsOp (s : DBState) : SettingsOp → DBState
  | .add input now => (add_settings s input now).1
  | .save input now => (save_settings s input now).1
  | .setDefault sid => (set_default_settings s sid).1

/-- Run a sequence of settings-store operations. -/
def runOps (s : DBState) (ops : List SettingsOp) : DBState :=
  ops.foldl applySettingsOp s

/-- The attachments contributed by a list of joined attachment rows
under the python truthiness filter. -/
def truthyList (ats : List Attachment) : List HistoryAttachment :=
  ats.flatMap fun a => truthyAttachment (some a)

/-- A sample message used to instantiate the theorems. -/
def exampleMsg1 : Message :=
  { message_id := "m1", conversation_id := "c1", role := "user",
    content_type := "text", content := "hello", created_at := 5 }

/-- A second sample message, later than the first. -/
def exampleMsg2 : Message :=
  { message_id := "m2", conversation_id := "c1", role := "assistant",
    content_type := "text", content := "hi", created_at := 7 }

/-- A sample attachment owned by the second message. -/
def exampleAtt1 : Attachment :=
  { attachment_id := "a1", message_id := "m2", file_name := "a.png",
    file_path := "/tmp/a.png", file_type := "image/png", file_size := 1024,
    created_at := 7 }

/-- The sample conversation row owning the two sample messages. -/
def exampleConv : Conversation :=
  { conversation_id := "c1", created_at := 1, last_updated := 7, summary := none }

/-- A small populated database used to instantiate the theorems: one
conversation with two messages, the second carrying one attachment. -/
def exampleDB : DBState :=
  { conversations := [exampleConv]
    messages := [exampleMsg2, exampleMsg1]
    attachments := [exampleAtt1]
    settings := [defaultSettingsRow 0]
    nextSettingsId := 2 }

/-- The database obtained from the sample one by appending a third
message to conversation c1. -/
def exampleDB2 : DBState :=
  add_message_state exampleDB "c1" "user" "yo" "text" [] "m3" [] 9

/-- An existing database file holding only one of the four expected
tables. -/
def partialSchema : SchemaState :=
  { tables := ["conversations"]
    conversationColumns := ["conversation_id", "created_at", "last_updated"]
    conversationRows := []
    settingsRows := [] }

/-- An existing database file with all four tables whose conversations
table predates the summary column. -/
def oldSchema : SchemaState :=
  { tables := ["conversations", "messages", "attachments", "settings"]
    conversationColumns := ["conversation_id", "created_at", "last_updated"]
    conversationRows := [{ conversation_id := "x", created_at := 1, last_updated := 2,
                           summary := none }]
    settingsRows := [defaultSettingsRow 0] }

/-!
Theorems.
-/

/-- In a settings table with pairwise-distinct ids, at most one row
matches a given id. -/
theorem countP_id_le_one (l : List SettingsRow) (sid : Nat)
    (h : (l.map fun r => r.id).Nodup) : l.countP (fun r => r.id = sid) ≤ 1 := by
  induction l with
  | nil => simp
  | cons r t ih =>
    rw [List.map_cons, List.nodup_cons] at h
    rw [List.countP_cons]
    by_cases hr : r.id = sid
    · have hz : t.countP (fun x => x.id = sid) = 0 := by
        rw [List.countP_eq_zero]
        intro x hx
        simp only [decide_eq_true_eq]
        intro hx2
        apply h.1
        rw [hr, ← hx2]
        exact List.mem_map_of_mem _ hx
      simp [hz, hr]
    · simp [hr, ih h.2]

/-- In a settings table with pairwise-distinct ids, an id that occurs
occurs in exactly one row. -/
theorem countP_id_eq_one (l : List SettingsRow) (sid : Nat)
    (h : (l.map fun r => r.id).Nodup) (hex : ∃ r ∈ l, r.id = sid) :
    l.countP (fun r => r.id = sid) = 1 := by
  induction l with
  | nil => simp at hex
  | cons r t ih =>
    rw [List.map_cons, List.nodup_cons] at h
    rw [List.countP_cons]
    by_cases hr : r.id = sid
    · have hz : t.countP (fun x => x.id = sid) = 0 := by
        rw [List.countP_eq_zero]
        intro x hx
        simp only [decide_eq_true_eq]
        intro hx2
        apply h.1
        rw [hr, ← hx2]
        exact List.mem_map_of_mem _ hx
      simp [hz, hr]
    · obtain ⟨r2, hmem, hid2⟩ := hex
      rcases List.mem_cons.mp hmem with rfl | hmem2
      · exact absurd hid2 hr
      · simp [hr, ih h.2 ⟨r2, hmem2, hid2⟩]

/-- The settings table after set_default_settings: the rows whose id
matches carry the flag, every other row has it cleared. -/
theorem set_default_settings_settings (s : DBState) (sid : Nat) :
    (set_default_settings s sid).1.settings =
      s.settings.map fun r =>
        if r.id = sid then { r with is_default := true }
        else { r with is_default := false } := by
  unfold set_default_settings
  simp only [List.map_map]
  apply List.map_congr_left
  intro r hr
  by_cases hd : r.is_default <;> by_cases hi : r.id = sid <;> cases r <;> simp_all

/-- After set_default_settings the number of flagged rows equals the
number of rows whose id matches the argument. -/
theorem defaultCount_set_default (s : DBState) (sid : Nat) :
    defaultCount (set_default_settings s sid).1 =
      s.settings.countP (fun r => r.id = sid) := by
  unfold defaultCount
  rw [set_default_settings_settings, ← List.countP_eq_length_filter, List.countP_map]
  apply List.countP_congr
  intro r hr
  by_cases hi : r.id = sid <;> simp [hi]

/-- The schema script establishes the settings invariant. -/
theorem settingsInv_fresh (now : Nat) : SettingsInv (freshDB now) := by
  refine ⟨by simp [freshDB], ?_, by simp [freshDB, defaultCount, defaultSettingsRow]⟩
  intro r hr
  simp only [freshDB, List.mem_singleton] at hr
  subst hr
  simp [defaultSettingsRow, freshDB]

/-- Inserting a fresh non-default row with the AUTOINCREMENT id
preserves the settings invariant. -/
theorem settingsInv_insert_new (s : DBState) (input : SettingsInput) (now : Nat)
    (h : SettingsInv s) :
    SettingsInv
      { s with settings := s.settings ++ [newSettingsRow s input now]
               nextSettingsId := s.nextSettingsId + 1 } := by
  obtain ⟨h1, h2, h3⟩ := h
  refine ⟨?_, ?_, ?_⟩
  · simp only [List.map_append, List.map_cons, List.map_nil]
    rw [List.nodup_append]
    refine ⟨h1, List.nodup_singleton _, ?_⟩
    intro a ha
    simp only [newSettingsRow, List.mem_singleton]
    intro hcon
    obtain ⟨r, hr, hid⟩ := List.mem_map.mp ha
    rw [hcon] at hid
    exact Nat.ne_of_lt (h2 r hr) hid
  · intro r hr
    rcases List.mem_append.mp hr with hr2 | hr2
    · exact Nat.lt_succ_of_lt (h2 r hr2)
    · rw [List.mem_singleton.mp hr2]
      exact Nat.lt_succ_self _
  · unfold defaultCount at h3 ⊢
    simp only [List.filter_append]
    have hnil : [newSettingsRow s input now].filter (fun r => r.is_default) = [] := by
      simp [newSettingsRow]
    rw [hnil, List.append_nil]
    exact h3

/-- add_settings preserves the settings invariant. -/
theorem settingsInv_add (s : DBState) (input : SettingsInput) (now : Nat)
    (h : SettingsInv s) : SettingsInv (add_settings s input now).1 :=
  settingsInv_insert_new s input now h

/-- save_settings preserves the settings invariant: its insert branch
adds a non-default row, its update branch changes neither ids nor
flags. -/
theorem settingsInv_save (s : DBState) (input : SettingsInput) (now : Nat)
    (h : SettingsInv s) : SettingsInv (save_settings s input now).1 := by
  unfold save_settings
  cases hid : input.id with
  | none => exact settingsInv_insert_new s input now h
  | some sid =>
    obtain ⟨h1, h2, h3⟩ := h
    refine ⟨?_, ?_, ?_⟩
    · simp only [List.map_map]
      have hc : ((fun r : SettingsRow => r.id) ∘ fun r =>
          if r.id = sid then updateSettingsRow input now r else r) =
          fun r : SettingsRow => r.id := by
        funext r
        by_cases hi : r.id = sid <;> simp [hi, updateSettingsRow]
      rw [hc]
      exact h1
    · intro r hr
      obtain ⟨r0, hr0, hfr0⟩ := List.mem_map.mp hr
      have hrid : r.id = r0.id := by
        rw [← hfr0]
        by_cases hi : r0.id = sid <;> simp [hi, updateSettingsRow]
      rw [hrid]
      exact h2 r0 hr0
    · unfold defaultCount at h3 ⊢
      simp only
      rw [← List.countP_eq_length_filter, List.countP_map]
      rw [← List.countP_eq_length_filter] at h3
      have heq : List.countP ((fun r : SettingsRow => r.is_default) ∘ fun r =>
          if r.id = sid then updateSettingsRow input now r else r) s.settings =
          List.countP (fun r : SettingsRow => r.is_default) s.settings := by
        apply List.countP_congr
        intro r hr
        by_cases hi : r.id = sid <;> simp [hi, updateSettingsRow]
      rw [heq]
      exact h3

/-- set_default_settings preserves the settings invariant. -/
theorem settingsInv_setDefault (s : DBState) (sid : Nat) (h : SettingsInv s) :
    SettingsInv (set_default_settings s sid).1 := by
  obtain ⟨h1, h2, h3⟩ := h
  refine ⟨?_, ?_, ?_⟩
  · rw [set_default_settings_settings]
    simp only [List.map_map]
    have hc : ((fun r : SettingsRow => r.id) ∘ fun r =>
        if r.id = sid then { r with is_default := true }
        else { r with is_default := false }) = fun r : SettingsRow => r.id := by
      funext r
      by_cases hi : r.id = sid <;> simp [hi]
    rw [hc]
    exact h1
  · intro r hr
    rw [set_default_settings_settings] at hr
    obtain ⟨r0, hr0, hfr0⟩ := List.mem_map.mp hr
    have hrid : r.id = r0.id := by
      rw [← hfr0]
      by_cases hi : r0.id = sid <;> simp [hi]
    rw [hrid]
    exact h2 r0 hr0
  · rw [defaultCount_set_default]
    exact countP_id_le_one s.settings sid h1

/-- Every sequence of settings-store operations preserves the settings
invariant. -/
theorem settingsInv_runOps (ops : List SettingsOp) :
    ∀ s : DBState, SettingsInv s → SettingsInv (runOps s ops) := by
  induction ops with
  | nil => intro s h; exact h
  | cons op rest ih =>
    intro s h
    have hstep : SettingsInv (applySettingsOp s op) := by
      cases op with
      | add input now => exact settingsInv_add s input now h
      | save input now => exact settingsInv_save s input now h
      | setDefault sid => exact settingsInv_setDefault s sid h
    exact ih (applySettingsOp s op) hstep

/-- C1: along every sequence of store operations starting from a fresh
database, at most one settings row carries the "default" flag; and a
set_default_settings call whose id exists in the reached state succeeds
and leaves exactly one flagged row, the one with that id. -/
theorem C1_single_default (ops : List SettingsOp) (now0 : Nat) :
    defaultCount (runOps (freshDB now0) ops) ≤ 1 ∧
    ∀ sid : Nat,
      (∃ r ∈ (runOps (freshDB now0) ops).settings, r.id = sid) →
      (set_default_settings (runOps (freshDB now0) ops) sid).2 = true ∧
      defaultCount (set_default_settings (runOps (freshDB now0) ops) sid).1 = 1 ∧
      ∀ r ∈ (set_default_settings (runOps (freshDB now0) ops) sid).1.settings,
        r.is_default = true → r.id = sid := by
  obtain ⟨h1, h2, h3⟩ := settingsInv_runOps ops (freshDB now0) (settingsInv_fresh now0)
  refine ⟨h3, ?_⟩
  intro sid hex
  refine ⟨?_, ?_, ?_⟩
  · unfold set_default_settings
    simp only [List.any_map, List.any_eq_true, Function.comp_apply, decide_eq_true_eq]
    obtain ⟨r, hr, hid⟩ := hex
    refine ⟨r, hr, ?_⟩
    by_cases hd : r.is_default <;> simp [hd, hid]
  · rw [defaultCount_set_default]
    exact countP_id_eq_one _ sid h1 hex
  · intro r hr hflag
    rw [set_default_settings_settings] at hr
    obtain ⟨r0, hr0, hfr0⟩ := List.mem_map.mp hr
    by_cases hi : r0.id = sid
    · rw [← hfr0]
      simp [hi]
    · rw [if_neg hi] at hfr0
      rw [← hfr0] at hflag
      simp at hflag

/-- Witness for C1: after adding a second profile to a fresh database,
promoting id 2 leaves exactly one default, namely id 2. -/
theorem C1_single_default_witness :
    (∃ r ∈ (runOps (freshDB 0) [SettingsOp.add {} 5]).settings, r.id = 2) ∧
    defaultCount (runOps (freshDB 0) [SettingsOp.add {} 5]) ≤ 1 ∧
    (set_default_settings (runOps (freshDB 0) [SettingsOp.add {} 5]) 2).2 = true ∧
    defaultCount (set_default_settings (runOps (freshDB 0) [SettingsOp.add {} 5]) 2).1 = 1 ∧
    ∀ r ∈ (set_default_settings (runOps (freshDB 0) [SettingsOp.add {} 5]) 2).1.settings,
      r.is_default = true → r.id = 2 :=
  ⟨by decide, (C1_single_default [SettingsOp.add {} 5] 0).1,
   (C1_single_default [SettingsOp.add {} 5] 0).2 2 (by decide)⟩

/-- C2: after delete_conversation(C), no attachment of any message of C,
no message of C, and no conversation row with id C remains; the three
DELETEs run in dependency order (attachments, then messages, then the
conversation row), as the definition of delete_conversation records. -/
theorem C2_delete_conversation_cascades (s : DBState) (C : String) (M : Message)
    (A : Attachment) (hM : M ∈ s.messages) (hMC : M.conversation_id = C)
    (_hA : A ∈ s.attachments) (hAM : A.message_id = M.message_id) :
    A ∉ (delete_conversation s C).attachments ∧
    M ∉ (delete_conversation s C).messages ∧
    ∀ c ∈ (delete_conversation s C).conversations, c.conversation_id ≠ C := by
  unfold delete_conversation delete_conversation_row delete_conversation_messages
    delete_conversation_attachments
  refine ⟨?_, ?_, ?_⟩
  · intro hmem
    simp only [List.mem_filter, decide_eq_true_eq] at hmem
    apply hmem.2
    apply List.elem_eq_true_of_mem
    rw [hAM]
    exact List.mem_map_of_mem _ (List.mem_filter.mpr ⟨hM, by simp [hMC]⟩)
  · intro hmem
    simp only [List.mem_filter, decide_eq_true_eq] at hmem
    exact hmem.2 hMC
  · intro c hc
    simp only [List.mem_filter, decide_eq_true_eq] at hc
    exact hc.2

/-- Witness for C2 at a concrete database: deleting conversation c1
removes message m2, its attachment a1, and the conversation row. -/
theorem C2_delete_conversation_cascades_witness :
    (exampleMsg2 ∈ exampleDB.messages ∧ exampleMsg2.conversation_id = "c1" ∧
      exampleAtt1 ∈ exampleDB.attachments ∧
      exampleAtt1.message_id = exampleMsg2.message_id) ∧
    (exampleAtt1 ∉ (delete_conversation exampleDB "c1").attachments ∧
      exampleMsg2 ∉ (delete_conversation exampleDB "c1").messages ∧
      ∀ c ∈ (delete_conversation exampleDB "c1").conversations,
        c.conversation_id ≠ "c1") :=
  ⟨by decide,
   C2_delete_conversation_cascades exampleDB "c1" exampleMsg2 exampleAtt1
     (by decide) (by decide) (by decide) (by decide)⟩

/-- A successful run of the attachment-insertion loop appends exactly
one attachments row per descriptor, touches no other table, and can
only have read complete descriptors. -/
theorem insertAttachmentRows_ok (mid : String) (now : Nat) :
    ∀ (l : List (String × AttachmentInput)) (s s2 : DBState),
      insertAttachmentRows mid now s l = (none, s2) →
      s2.attachments = s.attachments ++ l.map (fun p => attachmentRowOf mid now p.1 p.2) ∧
      s2.conversations = s.conversations ∧
      s2.messages = s.messages ∧
      s2.settings = s.settings ∧
      (∀ p ∈ l, p.2.complete = true) := by
  intro l
  induction l with
  | nil =>
    intro s s2 h
    unfold insertAttachmentRows at h
    injection h with h1 h2
    subst h2
    simp
  | cons hd tl ih =>
    intro s s2 h
    obtain ⟨aid, att⟩ := hd
    unfold insertAttachmentRows at h
    cases hn : att.name with
    | none => rw [hn] at h; simp at h
    | some n =>
    cases hp : att.path with
    | none => rw [hn, hp] at h; simp at h
    | some p =>
    cases ht : att.ftype with
    | none => rw [hn, hp, ht] at h; simp at h
    | some t =>
    cases hsz : att.size with
    | none => rw [hn, hp, ht, hsz] at h; simp at h
    | some sz =>
    rw [hn, hp, ht, hsz] at h
    simp only at h
    by_cases hdup : s.attachments.any fun a => a.attachment_id = aid
    · rw [if_pos hdup] at h; simp at h
    · rw [if_neg hdup] at h
      obtain ⟨h1, h2, h3, h4, h5⟩ := ih _ _ h
      refine ⟨?_, h2, h3, h4, ?_⟩
      · rw [h1]
        simp [attachmentRowOf, hn, hp, ht, hsz, List.append_assoc]
      · intro q hq
        rcases List.mem_cons.mp hq with rfl | hq2
        · simp [AttachmentInput.complete, hn, hp, ht, hsz]
        · exact h5 q hq2

/-- Shape of the state committed by a successful add_message call: the
returned id is the generated one, the role and content type passed
their CHECK constraints, the message row and one attachment row per
descriptor are appended, the parent conversation rows are touched, and
the settings table is untouched. -/
theorem add_message_ok_shape (s : DBState) (cid role content ctype : String)
    (atts : List AttachmentInput) (mid : String) (aids : List String) (now : Nat)
    (s2 : DBState) (rid : String)
    (h : add_message s cid role content ctype atts mid aids now = .ok (s2, rid)) :
    rid = mid ∧
    validRoles.contains role = true ∧
    validContentTypes.contains ctype = true ∧
    s2.messages = s.messages ++
      [{ message_id := mid, conversation_id := cid, role := role,
         content_type := ctype, content := content, created_at := now }] ∧
    s2.conversations = s.conversations.map (fun c =>
      if c.conversation_id = cid then { c with last_updated := now } else c) ∧
    s2.attachments = s.attachments ++
      (aids.zip atts).map (fun p => attachmentRowOf mid now p.1 p.2) ∧
    s2.settings = s.settings ∧
    (∀ p ∈ aids.zip atts, p.2.complete = true) := by
  unfold add_message add_message_raw insertMessageRow at h
  by_cases hdup : s.messages.any fun x => x.message_id = mid
  · rw [if_pos hdup] at h; simp at h
  · rw [if_neg hdup] at h
    by_cases hrole : validRoles.contains role
    · rw [if_pos hrole] at h
      by_cases hct : validContentTypes.contains ctype
      · rw [if_pos hct] at h
        simp only at h
        cases heq : insertAttachmentRows mid now
            (touchConversation
              { s with messages := s.messages ++
                [{ message_id := mid, conversation_id := cid, role := role,
                   content_type := ctype, content := content, created_at := now }] }
              cid now)
            (aids.zip atts) with
        | mk e s3 =>
        rw [heq] at h
        cases e with
        | some e2 => simp at h
        | none =>
          simp only [Except.ok.injEq, Prod.mk.injEq] at h
          obtain ⟨hs3, hrid⟩ := h
          subst hs3
          obtain ⟨h1, h2, h3, h4, h5⟩ := insertAttachmentRows_ok mid now _ _ _ heq
          refine ⟨hrid.symm, hrole, hct, ?_, ?_, ?_, ?_, h5⟩
          · rw [h3]; rfl
          · rw [h2]; rfl
          · rw [h1]; rfl
          · rw [h4]; rfl
      · rw [if_neg hct] at h; simp at h
    · rw [if_neg hrole] at h; simp at h

/-- C3: after a successful add_message into an existing conversation,
the conversation's last_updated equals the created_at of the newly
inserted message exactly (both are the call's single time.time()
reading). -/
theorem C3_last_updated_matches_message (s : DBState)
    (cid role content ctype : String) (atts : List AttachmentInput) (mid : String)
    (aids : List String) (now : Nat) (s2 : DBState) (rid : String)
    (hok : add_message s cid role content ctype atts mid aids now = .ok (s2, rid))
    (c : Conversation) (hc : c ∈ s.conversations) (hcid : c.conversation_id = cid) :
    ∃ msg ∈ s2.messages, msg.message_id = mid ∧ msg.created_at = now ∧
      (∃ c2 ∈ s2.conversations, c2.conversation_id = cid) ∧
      ∀ c2 ∈ s2.conversations, c2.conversation_id = cid →
        c2.last_updated = msg.created_at := by
  obtain ⟨-, -, -, hmsgs, hconvs, -, -, -⟩ :=
    add_message_ok_shape s cid role content ctype atts mid aids now s2 rid hok
  refine ⟨{ message_id := mid, conversation_id := cid, role := role,
            content_type := ctype, content := content, created_at := now },
          ?_, rfl, rfl, ?_, ?_⟩
  · rw [hmsgs]; exact List.mem_append_right _ (List.mem_singleton.mpr rfl)
  · refine ⟨{ c with last_updated := now }, ?_, hcid⟩
    rw [hconvs]
    refine List.mem_map.mpr ⟨c, hc, ?_⟩
    simp [hcid]
  · intro c2 hc2 hcid2
    rw [hconvs] at hc2
    obtain ⟨c0, hc0, hfc0⟩ := List.mem_map.mp hc2
    by_cases h0 : c0.conversation_id = cid
    · rw [if_pos h0] at hfc0
      rw [← hfc0]
    · rw [if_neg h0] at hfc0
      rw [← hfc0] at hcid2
      exact absurd hcid2 h0

/-- Witness for C3: appending a third message to the example
conversation at time 9. -/
theorem C3_last_updated_matches_message_witness :
    (add_message exampleDB "c1" "user" "yo" "text" [] "m3" [] 9 =
      .ok (exampleDB2, "m3") ∧
     exampleConv ∈ exampleDB.conversations ∧ exampleConv.conversation_id = "c1") ∧
    ∃ msg ∈ exampleDB2.messages, msg.message_id = "m3" ∧ msg.created_at = 9 ∧
      (∃ c2 ∈ exampleDB2.conversations, c2.conversation_id = "c1") ∧
      ∀ c2 ∈ exampleDB2.conversations, c2.conversation_id = "c1" →
        c2.last_updated = msg.created_at :=
  ⟨⟨rfl, by decide, by decide⟩,
   C3_last_updated_matches_message exampleDB "c1" "user" "yo" "text" [] "m3" [] 9
     exampleDB2 "m3" rfl exampleConv (by decide) (by decide)⟩

/-- C4: add_message is atomic.  On success every write of the call is
committed: the message row, the touch of the parent conversation's
last_updated, and one attachment row per descriptor, with the settings
table untouched.  When the role or content_type violates its CHECK
constraint or an attachment descriptor lacks a required key, the call
raises and the with-block rolls the transaction back, so the caller's
state is unchanged and no partial row exists. -/
theorem C4_add_message_atomic (s : DBState) (cid role content ctype : String)
    (atts : List AttachmentInput) (mid : String) (aids : List String) (now : Nat)
    (hlen : aids.length = atts.length) :
    (∀ s2 rid, add_message s cid role content ctype atts mid aids now = .ok (s2, rid) →
      rid = mid ∧
      s2.messages = s.messages ++
        [{ message_id := mid, conversation_id := cid, role := role,
           content_type := ctype, content := content, created_at := now }] ∧
      s2.conversations = s.conversations.map (fun c =>
        if c.conversation_id = cid then { c with last_updated := now } else c) ∧
      s2.attachments = s.attachments ++
        (aids.zip atts).map (fun p => attachmentRowOf mid now p.1 p.2) ∧
      s2.settings = s.settings) ∧
    ((validRoles.contains role = false ∨ validContentTypes.contains ctype = false ∨
        (∃ att ∈ atts, att.complete = false)) →
      (∃ e, add_message s cid role content ctype atts mid aids now = .error e) ∧
      add_message_state s cid role content ctype atts mid aids now = s) := by
  constructor
  · intro s2 rid hok
    obtain ⟨h1, -, -, h4, h5, h6, h7, -⟩ :=
      add_message_ok_shape s cid role content ctype atts mid aids now s2 rid hok
    exact ⟨h1, h4, h5, h6, h7⟩
  · intro hbad
    cases hres : add_message s cid role content ctype atts mid aids now with
    | error e =>
      refine ⟨⟨e, rfl⟩, ?_⟩
      unfold add_message_state
      rw [hres]
    | ok v =>
      exfalso
      obtain ⟨s2, rid⟩ := v
      obtain ⟨-, hrole, hct, -, -, -, -, hcomp⟩ :=
        add_message_ok_shape s cid role content ctype atts mid aids now s2 rid hres
      rcases hbad with hb | hb | ⟨att, hmem, hinc⟩
      · rw [hrole] at hb; simp at hb
      · rw [hct] at hb; simp at hb
      · obtain ⟨i, hattv⟩ := List.mem_iff_get.mp hmem
        have hi2 : (i : Nat) < atts.length := i.isLt
        have hiz : (i : Nat) < (aids.zip atts).length := by
          rw [List.length_zip, hlen]
          exact lt_min hi2 hi2
        have hmemz : (aids.zip atts).get ⟨i, hiz⟩ ∈ aids.zip atts := List.get_mem _ _ _
        have h2 := hcomp _ hmemz
        have h3 : ((aids.zip atts).get ⟨i, hiz⟩).2 = atts.get ⟨i, hi2⟩ := by
          simp [List.get_eq_getElem, List.getElem_zip]
        have h4 : atts.get ⟨(i : Nat), hi2⟩ = att := by
          rw [← hattv]
        rw [h3, h4] at h2
        rw [h2] at hinc
        simp at hinc

/-- Witness for C4: an invalid role is rejected and the example
database is unchanged. -/
theorem C4_add_message_atomic_witness :
    (validRoles.contains "robot" = false ∨
      validContentTypes.contains "text" = false ∨
      (∃ att ∈ ([] : List AttachmentInput), att.complete = false)) ∧
    ((∃ e, add_message exampleDB "c1" "robot" "x" "text" [] "mX" [] 9 = .error e) ∧
      add_message_state exampleDB "c1" "robot" "x" "text" [] "mX" [] 9 = exampleDB) :=
  ⟨Or.inl (by decide),
   (C4_add_message_atomic exampleDB "c1" "robot" "x" "text" [] "mX" [] 9 rfl).2
     (Or.inl (by decide))⟩

/-- A join row whose message is not yet grouped appends a fresh entry
at the end (python dict insertion order). -/
theorem addRowToGroups_fresh (acc : List HistoryEntry) (m : Message)
    (oa : Option Attachment)
    (h : ∀ e ∈ acc, e.message.message_id ≠ m.message_id) :
    addRowToGroups acc (m, oa) =
      acc ++ [{ message := m, attachments := truthyAttachment oa }] := by
  unfold addRowToGroups
  have hany : (acc.any fun e => e.message.message_id = m.message_id) = false := by
    rw [List.any_eq_false]
    intro e he
    simp [h e he]
  simp [hany]

/-- A join row of the message held by the last entry only appends its
truthy attachment to that entry. -/
theorem addRowToGroups_grow (acc : List HistoryEntry) (m : Message)
    (l : List HistoryAttachment) (oa : Option Attachment)
    (h : ∀ e ∈ acc, e.message.message_id ≠ m.message_id) :
    addRowToGroups (acc ++ [{ message := m, attachments := l }]) (m, oa) =
      acc ++ [{ message := m, attachments := l ++ truthyAttachment oa }] := by
  unfold addRowToGroups
  have hany : ((acc ++ [({ message := m, attachments := l } : HistoryEntry)]).any
      fun e => e.message.message_id = m.message_id) = true := by
    rw [List.any_eq_true]
    exact ⟨({ message := m, attachments := l } : HistoryEntry),
      List.mem_append_right _ (List.mem_singleton.mpr rfl), by simp⟩
  simp only [hany, if_true]
  rw [List.map_append]
  congr 1
  · conv_rhs => rw [← List.map_id acc]
    apply List.map_congr_left
    intro e he
    simp [h e he]
  · simp


/-- Folding the remaining join rows of one message accumulates its
attachments into the entry just created. -/
theorem foldl_addRow_same (m : Message) :
    ∀ (ats : List Attachment) (acc : List HistoryEntry) (l : List HistoryAttachment),
      (∀ e ∈ acc, e.message.message_id ≠ m.message_id) →
      List.foldl addRowToGroups (acc ++ [({ message := m, attachments := l } : HistoryEntry)])
        (ats.map fun a => (m, some a)) =
      acc ++ [({ message := m, attachments := l ++ truthyList ats } : HistoryEntry)] := by
  intro ats
  induction ats with
  | nil =>
    intro acc l h
    simp [truthyList]
  | cons a rest ih =>
    intro acc l h
    simp only [List.map_cons, List.foldl_cons]
    rw [addRowToGroups_grow acc m l (some a) h]
    rw [ih acc (l ++ truthyAttachment (some a)) h]
    simp [truthyList, List.append_assoc]

/-- Folding the whole join-row block of one unseen message adds exactly
one entry carrying its truthy attachments. -/
theorem foldl_addRow_block (m : Message) (ats : List Attachment)
    (acc : List HistoryEntry)
    (h : ∀ e ∈ acc, e.message.message_id ≠ m.message_id) :
    List.foldl addRowToGroups acc (expandMessage m ats) =
      acc ++ [({ message := m, attachments := truthyList ats } : HistoryEntry)] := by
  cases ats with
  | nil =>
    simp only [expandMessage, List.foldl_cons, List.foldl_nil]
    rw [addRowToGroups_fresh acc m none h]
    simp [truthyList, truthyAttachment]
  | cons a rest =>
    simp only [expandMessage, List.map_cons, List.foldl_cons]
    rw [addRowToGroups_fresh acc m (some a) h]
    rw [foldl_addRow_same m rest acc (truthyAttachment (some a)) h]
    simp [truthyList]

/-- Folding the join rows of a list of messages with pairwise-distinct
ids, none grouped yet, appends one entry per message in order. -/
theorem foldl_addRow_blocks (f : Message → List Attachment) :
    ∀ (msgs : List Message) (acc : List HistoryEntry),
      (msgs.map fun m => m.message_id).Nodup →
      (∀ e ∈ acc, ∀ m ∈ msgs, e.message.message_id ≠ m.message_id) →
      List.foldl addRowToGroups acc (msgs.flatMap fun m => expandMessage m (f m)) =
        acc ++ msgs.map fun m =>
          ({ message := m, attachments := truthyList (f m) } : HistoryEntry) := by
  intro msgs
  induction msgs with
  | nil =>
    intro acc h1 h2
    simp
  | cons m rest ih =>
    intro acc h1 h2
    rw [List.flatMap_cons, List.foldl_append]
    rw [foldl_addRow_block m (f m) acc (fun e he => h2 e he m (List.mem_cons_self _ _))]
    rw [List.map_cons, List.nodup_cons] at h1
    have hacc : ∀ e ∈ acc ++ [({ message := m, attachments := truthyList (f m) } : HistoryEntry)],
        ∀ m2 ∈ rest, e.message.message_id ≠ m2.message_id := by
      intro e he m2 hm2
      rcases List.mem_append.mp he with he2 | he2
      · exact h2 e he2 m2 (List.mem_cons_of_mem _ hm2)
      · rw [List.mem_singleton.mp he2]
        simp only
        intro hcon
        apply h1.1
        rw [hcon]
        exact List.mem_map_of_mem _ hm2
    rw [ih (acc ++ [({ message := m, attachments := truthyList (f m) } : HistoryEntry)]) h1.2 hacc]
    simp [List.append_assoc]

/-- Closed form of get_conversation_history when message ids are
pairwise distinct: one entry per matching message, sorted by
created_at, each carrying its truthy attachments. -/
theorem get_conversation_history_eq (s : DBState) (cid : String)
    (hnodup : (s.messages.map fun m => m.message_id).Nodup) :
    get_conversation_history s cid =
      ((s.messages.filter fun m => m.conversation_id = cid).mergeSort
          fun a b => a.created_at ≤ b.created_at).map
        fun m => ({ message := m,
                    attachments := truthyList
                      (s.attachments.filter fun a => a.message_id = m.message_id) } :
          HistoryEntry) := by
  unfold get_conversation_history joinRows
  have hsorted : (((s.messages.filter fun m => m.conversation_id = cid).mergeSort
      fun a b => a.created_at ≤ b.created_at).map fun m => m.message_id).Nodup := by
    have hperm := (List.mergeSort_perm
      (s.messages.filter fun m => m.conversation_id = cid)
      fun a b => a.created_at ≤ b.created_at).map fun m => m.message_id
    rw [List.Perm.nodup_iff hperm]
    have hsub : ((s.messages.filter fun m => m.conversation_id = cid).map
        fun m => m.message_id).Sublist (s.messages.map fun m => m.message_id) :=
      (List.filter_sublist s.messages).map fun m => m.message_id
    exact List.Nodup.sublist hsub hnodup
  rw [foldl_addRow_blocks _ _ [] hsorted (by simp)]
  simp


/-- When no attachment id is the empty string the truthiness filter
keeps every joined attachment. -/
theorem truthyList_eq_map (ats : List Attachment)
    (h : ∀ a ∈ ats, a.attachment_id ≠ "") :
    truthyList ats = ats.map attachmentView := by
  induction ats with
  | nil => simp [truthyList]
  | cons a rest ih =>
    simp only [truthyList, List.flatMap_cons, List.map_cons] at *
    rw [ih fun x hx => h x (List.mem_cons_of_mem _ hx)]
    simp [truthyAttachment, h a (List.mem_cons_self _ _)]

/-- C5: get_conversation_history returns the messages of the
conversation in non-decreasing created_at order, each message exactly
once (a permutation of the matching message rows), and each entry
carries exactly the attachments whose message_id matches (uuid ids are
never the empty string, stated as a hypothesis). -/
theorem C5_history_shape (s : DBState) (cid : String)
    (hnodup : (s.messages.map fun m => m.message_id).Nodup)
    (hids : ∀ a ∈ s.attachments, a.attachment_id ≠ "") :
    List.Chain' (fun x y => x.message.created_at ≤ y.message.created_at)
      (get_conversation_history s cid) ∧
    ((get_conversation_history s cid).map fun e => e.message).Perm
      (s.messages.filter fun m => m.conversation_id = cid) ∧
    ∀ e ∈ get_conversation_history s cid,
      e.attachments =
        (s.attachments.filter fun a => a.message_id = e.message.message_id).map
          attachmentView := by
  have heq := get_conversation_history_eq s cid hnodup
  have hpair := @List.sorted_mergeSort Message
    (fun a b : Message => a.created_at ≤ b.created_at)
    (by intro a b c h1 h2; simp only [decide_eq_true_eq] at *; omega)
    (by intro a b; simp only [Bool.or_eq_true, decide_eq_true_eq]; omega)
    (s.messages.filter fun m => m.conversation_id = cid)
  refine ⟨?_, ?_, ?_⟩
  · rw [heq, List.chain'_map]
    apply List.Pairwise.chain'
    apply hpair.imp
    intro a b hab
    simpa using hab
  · rw [heq, List.map_map]
    have hid : ((fun e : HistoryEntry => e.message) ∘ fun m =>
        ({ message := m,
           attachments := truthyList (s.attachments.filter fun a => a.message_id = m.message_id) } :
          HistoryEntry)) = fun m : Message => m := rfl
    rw [hid, List.map_id']
    exact List.mergeSort_perm _ _
  · intro e he
    rw [heq] at he
    obtain ⟨m, hm, hfm⟩ := List.mem_map.mp he
    rw [← hfm]
    simp only
    apply truthyList_eq_map
    intro a ha
    exact hids a (List.mem_filter.mp ha).1

/-- Witness for C5 on the example database: the two-message history of
conversation c1 is ordered, duplicate-free, and carries the right
attachments. -/
theorem C5_history_shape_witness :
    ((exampleDB.messages.map fun m => m.message_id).Nodup ∧
      ∀ a ∈ exampleDB.attachments, a.attachment_id ≠ "") ∧
    (List.Chain' (fun x y => x.message.created_at ≤ y.message.created_at)
      (get_conversation_history exampleDB "c1") ∧
    ((get_conversation_history exampleDB "c1").map fun e => e.message).Perm
      (exampleDB.messages.filter fun m => m.conversation_id = "c1") ∧
    ∀ e ∈ get_conversation_history exampleDB "c1",
      e.attachments =
        (exampleDB.attachments.filter fun a => a.message_id = e.message.message_id).map
          attachmentView) :=
  ⟨⟨by decide, by decide⟩, C5_history_shape exampleDB "c1" (by decide) (by decide)⟩

/-- C7: set_default_settings on an id matching no settings row still
clears the "default" flag everywhere (possibly leaving zero defaults)
and returns false; on an id that matches a row it returns true. -/
theorem C7_set_default_missing_or_found (s : DBState) (sid : Nat) :
    ((∀ r ∈ s.settings, r.id ≠ sid) →
      (set_default_settings s sid).2 = false ∧
      (set_default_settings s sid).1.settings =
        s.settings.map fun r => { r with is_default := false }) ∧
    ((∃ r ∈ s.settings, r.id = sid) → (set_default_settings s sid).2 = true) := by
  constructor
  · intro h
    constructor
    · unfold set_default_settings
      simp only [List.any_map, List.any_eq_false, Function.comp_apply, decide_eq_true_eq]
      intro r hr
      by_cases hd : r.is_default <;> simp [hd, h r hr]
    · unfold set_default_settings
      simp only [List.map_map]
      apply List.map_congr_left
      intro r hr
      by_cases hd : r.is_default <;>
        · cases r
          simp_all [h _ hr]
  · intro ⟨r, hr, hid⟩
    unfold set_default_settings
    simp only [List.any_map, List.any_eq_true, Function.comp_apply, decide_eq_true_eq]
    refine ⟨r, hr, ?_⟩
    by_cases hd : r.is_default <;> simp [hd, hid]

/-- Witness for C7 on a fresh database: id 5 matches nothing, so the
call clears the lone default flag and returns false; id 1 matches the
auto-created profile and the call returns true. -/
theorem C7_set_default_missing_or_found_witness :
    ((∀ r ∈ (freshDB 0).settings, r.id ≠ 5) ∧
      (set_default_settings (freshDB 0) 5).2 = false ∧
      (set_default_settings (freshDB 0) 5).1.settings =
        (freshDB 0).settings.map fun r => { r with is_default := false }) ∧
    ((∃ r ∈ (freshDB 0).settings, r.id = 1) ∧
      (set_default_settings (freshDB 0) 1).2 = true) :=
  ⟨⟨by decide, (C7_set_default_missing_or_found (freshDB 0) 5).1 (by decide)⟩,
   ⟨by decide, (C7_set_default_missing_or_found (freshDB 0) 1).2 (by decide)⟩⟩

/-- C8: get_settings_by_id after add_settings returns a row whose
fields are the supplied values, with each omitted field taking its
documented default, and the new row is not flagged default.  The
AUTOINCREMENT counter exceeds every existing id, stated here as the
freshness hypothesis. -/
theorem C8_add_settings_roundtrip (s : DBState) (input : SettingsInput) (now : Nat)
    (hfresh : ∀ r ∈ s.settings, r.id ≠ s.nextSettingsId) :
    ∃ row,
      get_settings_by_id (add_settings s input now).1 (add_settings s input now).2 =
        some row ∧
      row.name = input.name.getD "New Config" ∧
      row.temperature = input.temperature.getD 1 ∧
      row.max_tokens = input.max_tokens.getD 4096 ∧
      row.top_p = input.top_p.getD (0.95 : Rat) ∧
      row.host = input.host.getD "http://localhost:8000/v1" ∧
      row.model_name = input.model_name.getD "meta-llama/Llama-3.2-1B-Instruct" ∧
      row.api_key = input.api_key.getD "" ∧
      row.is_default = false ∧
      row.id = (add_settings s input now).2 := by
  refine ⟨newSettingsRow s input now, ?_, rfl, rfl, rfl, rfl, rfl, rfl, rfl, rfl, rfl⟩
  unfold get_settings_by_id add_settings
  rw [List.find?_append]
  have h1 : s.settings.find? (fun r => r.id = s.nextSettingsId) = none := by
    rw [List.find?_eq_none]
    intro r hr
    simp [hfresh r hr]
  simp [h1, newSettingsRow]

/-- Witness for C8: adding an all-defaults profile to a fresh database
and reading it back by the returned id. -/
theorem C8_add_settings_roundtrip_witness :
    (∀ r ∈ (freshDB 0).settings, r.id ≠ (freshDB 0).nextSettingsId) ∧
    ∃ row,
      get_settings_by_id (add_settings (freshDB 0) {} 4).1
        (add_settings (freshDB 0) {} 4).2 = some row ∧
      row.name = ({} : SettingsInput).name.getD "New Config" ∧
      row.temperature = ({} : SettingsInput).temperature.getD 1 ∧
      row.max_tokens = ({} : SettingsInput).max_tokens.getD 4096 ∧
      row.top_p = ({} : SettingsInput).top_p.getD (0.95 : Rat) ∧
      row.host = ({} : SettingsInput).host.getD "http://localhost:8000/v1" ∧
      row.model_name =
        ({} : SettingsInput).model_name.getD "meta-llama/Llama-3.2-1B-Instruct" ∧
      row.api_key = ({} : SettingsInput).api_key.getD "" ∧
      row.is_default = false ∧
      row.id = (add_settings (freshDB 0) {} 4).2 :=
  ⟨by decide, C8_add_settings_roundtrip (freshDB 0) {} 4 (by decide)⟩

/-- C9: save_settings on an input carrying an existing id updates that
row's listed columns and updated_at, leaves its id and "default" flag
unchanged, and leaves every other row untouched (stated pointwise over
row positions). -/
theorem C9_save_settings_frame (s : DBState) (input : SettingsInput) (sid : Nat)
    (now : Nat) (hid : input.id = some sid) :
    (save_settings s input now).1.settings.length = s.settings.length ∧
    ∀ i : Nat, ∀ r, s.settings[i]? = some r →
      ∃ r2, (save_settings s input now).1.settings[i]? = some r2 ∧
        r2.id = r.id ∧ r2.is_default = r.is_default ∧
        (r.id ≠ sid → r2 = r) ∧
        (r.id = sid →
          r2.name = input.name.getD "Default Config" ∧
          r2.temperature = input.temperature.getD 1 ∧
          r2.max_tokens = input.max_tokens.getD 4096 ∧
          r2.top_p = input.top_p.getD (0.95 : Rat) ∧
          r2.host = input.host.getD "http://localhost:8000/v1" ∧
          r2.model_name = input.model_name.getD "meta-llama/Llama-3.2-1B-Instruct" ∧
          r2.api_key = input.api_key.getD "" ∧
          r2.updated_at = now) := by
  unfold save_settings
  rw [hid]
  simp only
  constructor
  · simp
  · intro i r hr
    refine ⟨if r.id = sid then updateSettingsRow input now r else r, ?_, ?_, ?_, ?_, ?_⟩
    · simp [List.getElem?_map, hr]
    · by_cases h : r.id = sid <;> simp [h, updateSettingsRow]
    · by_cases h : r.id = sid <;> simp [h, updateSettingsRow]
    · intro h; simp [h]
    · intro h; simp [h, updateSettingsRow]

/-- Witness for C9: renaming the auto-created profile of a fresh
database through save_settings with id 1. -/
theorem C9_save_settings_frame_witness :
    ({ id := some 1, name := some "renamed" } : SettingsInput).id = some 1 ∧
    ((save_settings (freshDB 0) { id := some 1, name := some "renamed" } 6).1.settings.length =
      (freshDB 0).settings.length ∧
    ∀ i : Nat, ∀ r, (freshDB 0).settings[i]? = some r →
      ∃ r2,
        (save_settings (freshDB 0) { id := some 1, name := some "renamed" } 6).1.settings[i]? =
          some r2 ∧
        r2.id = r.id ∧ r2.is_default = r.is_default ∧
        (r.id ≠ 1 → r2 = r) ∧
        (r.id = 1 →
          r2.name = ({ id := some 1, name := some "renamed" } : SettingsInput).name.getD
            "Default Config" ∧
          r2.temperature =
            ({ id := some 1, name := some "renamed" } : SettingsInput).temperature.getD 1 ∧
          r2.max_tokens =
            ({ id := some 1, name := some "renamed" } : SettingsInput).max_tokens.getD 4096 ∧
          r2.top_p =
            ({ id := some 1, name := some "renamed" } : SettingsInput).top_p.getD (0.95 : Rat) ∧
          r2.host = ({ id := some 1, name := some "renamed" } : SettingsInput).host.getD
            "http://localhost:8000/v1" ∧
          r2.model_name =
            ({ id := some 1, name := some "renamed" } : SettingsInput).model_name.getD
              "meta-llama/Llama-3.2-1B-Instruct" ∧
          r2.api_key =
            ({ id := some 1, name := some "renamed" } : SettingsInput).api_key.getD "" ∧
          r2.updated_at = 6)) :=
  ⟨rfl, C9_save_settings_frame (freshDB 0) { id := some 1, name := some "renamed" } 1 6 rfl⟩

/-- C10: get_conversation_history of a conversation id with no messages
(including an id with no conversation row at all) is the empty list. -/
theorem C10_history_of_empty_conversation (s : DBState) (cid : String)
    (h : ∀ m ∈ s.messages, m.conversation_id ≠ cid) :
    get_conversation_history s cid = [] := by
  have hf : s.messages.filter (fun m => m.conversation_id = cid) = [] := by
    rw [List.filter_eq_nil_iff]
    intro m hm
    simp [h m hm]
  unfold get_conversation_history joinRows
  simp [hf]

/-- Witness for C10: a conversation id absent from the example database
yields an empty history. -/
theorem C10_history_of_empty_conversation_witness :
    (∀ m ∈ exampleDB.messages, m.conversation_id ≠ "c9") ∧
    get_conversation_history exampleDB "c9" = [] :=
  ⟨by decide, C10_history_of_empty_conversation exampleDB "c9" (by decide)⟩

/-- contains is false on a non-member. -/
theorem contains_eq_false_of_not_mem {l : List String} {a : String} (h : a ∉ l) :
    l.contains a = false := by
  cases hc : l.contains a
  · rfl
  · exact absurd (List.mem_of_elem_eq_true hc) h

/-- When none of the four tables exists the schema script runs to
completion: all four tables are created and the default profile is
inserted. -/
theorem executeSchemaScript_fresh (st : SchemaState) (now : Nat)
    (hc : "conversations" ∉ st.tables) (hm : "messages" ∉ st.tables)
    (ha : "attachments" ∉ st.tables) (hs : "settings" ∉ st.tables) :
    executeSchemaScript st now =
      (none, { tables := st.tables ++ expectedTables
               conversationColumns := conversationsColumns
               conversationRows := []
               settingsRows := [defaultSettingsRow now] }) := by
  have hc2 := contains_eq_false_of_not_mem hc
  have hm2 := contains_eq_false_of_not_mem hm
  have ha2 := contains_eq_false_of_not_mem ha
  have hs2 := contains_eq_false_of_not_mem hs
  unfold executeSchemaScript stepCreateConversations stepCreateMessages
    stepCreateAttachments stepCreateSettings
  simp [hc, hm, ha, hs, expectedTables, List.mem_append, List.mem_singleton]


/-- A filter that drops at least one element is strictly shorter. -/
theorem length_filter_lt_of_exists {α : Type} {p : α → Bool} :
    ∀ (l : List α), (∃ x ∈ l, p x = false) → (l.filter p).length < l.length := by
  intro l
  induction l with
  | nil => intro h; simp at h
  | cons a t ih =>
    intro h
    obtain ⟨x, hx, hpx⟩ := h
    rcases List.mem_cons.mp hx with rfl | hx2
    · rw [List.filter_cons, hpx]
      simp only [Bool.false_eq_true, if_false]
      exact Nat.lt_succ_of_le (List.length_filter_le p t)
    · rw [List.filter_cons]
      by_cases hpa : p a
      · simp only [hpa, if_true, List.length_cons]
        exact Nat.succ_lt_succ (ih ⟨x, hx2, hpx⟩)
      · simp only [hpa, Bool.false_eq_true, if_false, List.length_cons]
        exact Nat.lt_succ_of_lt (ih ⟨x, hx2, hpx⟩)

/-- When at least one of the four tables already exists the schema
script stops at a CREATE TABLE error. -/
theorem executeSchemaScript_error (st : SchemaState) (now : Nat)
    (h : ∃ t ∈ expectedTables, t ∈ st.tables) :
    ∃ e, (executeSchemaScript st now).1 = some e := by
  unfold executeSchemaScript stepCreateConversations stepCreateMessages
    stepCreateAttachments stepCreateSettings
  by_cases hc : "conversations" ∈ st.tables
  · simp [hc]
  · by_cases hm : "messages" ∈ st.tables
    · simp [hc, hm]
    · by_cases ha : "attachments" ∈ st.tables
      · simp [hc, hm, ha]
      · by_cases hs : "settings" ∈ st.tables
        · simp [hc, hm, ha, hs]
        · exfalso
          obtain ⟨t, ht, hmem⟩ := h
          simp only [expectedTables, List.mem_cons, List.mem_singleton,
            List.not_mem_nil, or_false] at ht
          rcases ht with rfl | rfl | rfl | rfl
          · exact hc hmem
          · exact hm hmem
          · exact ha hmem
          · exact hs hmem

/-- C6 (amended): on an existing store, _init_db counts the expected
tables present; with fewer than four it re-runs the schema script,
which succeeds only when none of the four tables is present and
otherwise fails with a table-already-exists error; with all four
present and a conversations table lacking the summary column, it adds
that column in place without modifying any existing row. -/
theorem C6_init_db_existing_amended (st : SchemaState) (now : Nat) :
    ((∀ t ∈ expectedTables, t ∉ st.tables) →
      init_db_existing st now =
        (none, { tables := st.tables ++ expectedTables
                 conversationColumns := conversationsColumns
                 conversationRows := []
                 settingsRows := [defaultSettingsRow now] })) ∧
    (((∃ t ∈ expectedTables, t ∈ st.tables) ∧ ∃ t ∈ expectedTables, t ∉ st.tables) →
      ∃ e, (init_db_existing st now).1 = some e) ∧
    ((∀ t ∈ expectedTables, t ∈ st.tables) →
      (st.conversationColumns.contains "summary" = true →
        init_db_existing st now = (none, st)) ∧
      (st.conversationColumns.contains "summary" = false →
        init_db_existing st now =
          (none, { st with
                    conversationColumns := st.conversationColumns ++ ["summary"] }))) := by
  refine ⟨?_, ?_, ?_⟩
  · intro h
    have hfil : expectedTables.filter (fun t => st.tables.contains t) = [] := by
      rw [List.filter_eq_nil_iff]
      intro t ht
      intro hcon
      exact h t ht (List.mem_of_elem_eq_true hcon)
    unfold init_db_existing
    rw [hfil]
    rw [if_pos (by norm_num)]
    apply executeSchemaScript_fresh
    · exact h _ (by simp [expectedTables])
    · exact h _ (by simp [expectedTables])
    · exact h _ (by simp [expectedTables])
    · exact h _ (by simp [expectedTables])
  · intro ⟨hex, t2, ht2, hmem2⟩
    have hlt : (expectedTables.filter fun t => st.tables.contains t).length <
        expectedTables.length :=
      length_filter_lt_of_exists expectedTables
        ⟨t2, ht2, contains_eq_false_of_not_mem hmem2⟩
    unfold init_db_existing
    rw [if_pos (by simpa [expectedTables] using hlt)]
    exact executeSchemaScript_error st now hex
  · intro h
    have hfil : expectedTables.filter (fun t => st.tables.contains t) = expectedTables := by
      rw [List.filter_eq_self]
      intro t ht
      exact List.elem_eq_true_of_mem (h t ht)
    unfold init_db_existing
    rw [hfil]
    rw [if_neg (by simp [expectedTables])]
    constructor
    · intro hsum
      rw [if_pos hsum]
    · intro hsum
      rw [hsum]
      simp

/-- Counterexample to C6 as stated: a store holding only the
conversations table has fewer than four expected tables, yet re-running
the schema creation does not succeed; initialization raises a
table-already-exists error. -/
theorem C6_partial_store_fails :
    (expectedTables.filter fun t => partialSchema.tables.contains t).length < 4 ∧
    (init_db_existing partialSchema 5).1 = some "table conversations already exists" :=
  ⟨by decide, by decide⟩

/-- Witness for the amended C6: a store with one table fails, and a
complete pre-summary store gets the column added with its rows kept. -/
theorem C6_init_db_existing_amended_witness :
    (((∃ t ∈ expectedTables, t ∈ partialSchema.tables) ∧
        ∃ t ∈ expectedTables, t ∉ partialSchema.tables) ∧
      ∃ e, (init_db_existing partialSchema 5).1 = some e) ∧
    ((∀ t ∈ expectedTables, t ∈ oldSchema.tables) ∧
      oldSchema.conversationColumns.contains "summary" = false ∧
      init_db_existing oldSchema 5 =
        (none, { oldSchema with
                  conversationColumns := oldSchema.conversationColumns ++ ["summary"] })) :=
  ⟨⟨by decide, (C6_init_db_existing_amended partialSchema 5).2.1 ⟨by decide, by decide⟩⟩,
   ⟨by decide, by decide,
    ((C6_init_db_existing_amended oldSchema 5).2.2 (by decide)).2 (by decide)⟩⟩

end ChatDb
